import Mathlib

/-!
Verification of the task-management backend (FastAPI/SQLModel application).

Shallow embedding conventions:
* Python `str` is modelled as `List Char` (`PyStr`); the handful of string
  operations the source uses (`strip`, `lower`, single-character `replace`,
  `isdigit`, `in`-substring via SQL `ILIKE`) are defined explicitly below,
  restricted to ASCII as the repository's canonical tokens are ASCII.
* `datetime` values are modelled as integer timestamps (`Int`); only their
  ordering matters to the code under verification.
* A SQL `SELECT` over the `tasks` table is modelled as list processing over a
  `List Task` store: `WHERE` clauses become `List.filter`, `ORDER BY` becomes
  an insertion sort, `OFFSET/LIMIT/COUNT` become `drop/take/length`.
* Fallible endpoints return `Except HTTPErr α`; an exception escaping a
  handler (FastAPI's 500) is `HTTPErr.internalError`.
-/

namespace TaskApp

/-- Python strings, modelled as lists of characters. -/
abbrev PyStr := List Char

/-- Coerce a Lean string literal into the `PyStr` model. -/
def pstr (s : String) : PyStr := s.toList

/-- Python's whitespace test for `str.strip()`, restricted to the ASCII
whitespace characters. -/
def pyIsSpace (c : Char) : Bool :=
  c = ' ' || c = '\t' || c = '\n' || c = '\r'

/-- The ASCII uppercase/lowercase pairs. -/
def upperLowerPairs : List (Char × Char) :=
  [('A', 'a'), ('B', 'b'), ('C', 'c'), ('D', 'd'), ('E', 'e'), ('F', 'f'),
   ('G', 'g'), ('H', 'h'), ('I', 'i'), ('J', 'j'), ('K', 'k'), ('L', 'l'),
   ('M', 'm'), ('N', 'n'), ('O', 'o'), ('P', 'p'), ('Q', 'q'), ('R', 'r'),
   ('S', 's'), ('T', 't'), ('U', 'u'), ('V', 'v'), ('W', 'w'), ('X', 'x'),
   ('Y', 'y'), ('Z', 'z')]

/-- Python `str.lower()` on one character (ASCII). -/
def pyLower (c : Char) : Char :=
  match upperLowerPairs.find? (fun q => q.1 = c) with
  | some q => q.2
  | none => c

/-- Python `str.lower()` (ASCII). -/
def pyLowerStr (s : PyStr) : PyStr := s.map pyLower

/-- Single-character substitution, the effect of Python
`str.replace(old, new)` when `old` and `new` are one character long. -/
def replChar (a b : Char) (c : Char) : Char := if c = a then b else c

/-- Python `str.replace(a, b)` for one-character `a`, `b`. -/
def replaceChar (a b : Char) (s : PyStr) : PyStr := s.map (replChar a b)

/-- Python `str.strip()`: drop ASCII whitespace from both ends. -/
def pyStrip (s : PyStr) : PyStr :=
  ((s.dropWhile pyIsSpace).reverse.dropWhile pyIsSpace).reverse

/-- Python `str.isdigit()` restricted to ASCII decimal digits (the only
digits relevant to the numeric task/user keys of this repository). -/
def pyIsDigits (s : PyStr) : Bool :=
  !s.isEmpty && s.all (fun c => '0' ≤ c && c ≤ '9')

/-- Python `int(s)` on an all-digit string. -/
def pyStrToNat (s : PyStr) : Nat :=
  s.foldl (fun n c => n * 10 + (c.toNat - '0'.toNat)) 0

/-- Rendering an integer back to text, as SQLite does when an integer literal
is compared against a TEXT-affinity column. -/
def natToPyStr (n : Nat) : PyStr := (toString n).toList

-- ---------------------------------------------------------------------
-- routers/tasks.py: canonical enums & normalization
-- ---------------------------------------------------------------------

/-- `VALID_STATUSES` from routers/tasks.py. -/
def VALID_STATUSES : List PyStr :=
  [pstr "not_started", pstr "in_progress", pstr "completed",
   pstr "approved", pstr "rejected", pstr "resubmit"]

/-- `VALID_PRIORITIES` from routers/tasks.py. -/
def VALID_PRIORITIES : List PyStr :=
  [pstr "low", pstr "medium", pstr "high", pstr "critical"]

/-- `TERMINAL_STATUSES` from routers/tasks.py. -/
def TERMINAL_STATUSES : List PyStr :=
  [pstr "completed", pstr "approved", pstr "rejected"]

/-- The `STATUS_CANON` synonym dictionary from routers/tasks.py, as a lookup
with default (`STATUS_CANON.get(s, s)`).  The keys are kept exactly as in the
source, including the two hyphenated keys that can never match because the
caller has already replaced hyphens by spaces. -/
def STATUS_CANON (s : PyStr) : PyStr :=
  if s = pstr "to do" then pstr "not_started"
  else if s = pstr "todo" then pstr "not_started"
  else if s = pstr "not started" then pstr "not_started"
  else if s = pstr "in progress" then pstr "in_progress"
  else if s = pstr "re-submission" then pstr "resubmit"
  else if s = pstr "re submission" then pstr "resubmit"
  else if s = pstr "re-submitted" then pstr "resubmit"
  else s

/-- The `PRIORITY_CANON` dictionary from routers/tasks.py. -/
def PRIORITY_CANON (s : PyStr) : PyStr :=
  if s = pstr "normal" then pstr "medium" else s

/-- `canon_status` from routers/tasks.py: strip; blank means "not provided";
lowercase; replace underscores and hyphens by spaces; look up the synonym
table; replace spaces by underscores; keep only members of
`VALID_STATUSES`. -/
def canon_status (val : Option PyStr) : Option PyStr :=
  match val with
  | none => none
  | some v =>
    let s := pyStrip v
    if s = [] then none
    else
      let s1 := replaceChar '-' ' ' (replaceChar '_' ' ' (pyLowerStr s))
      let s2 := replaceChar ' ' '_' (STATUS_CANON s1)
      if s2 ∈ VALID_STATUSES then some s2 else none

/-- `canon_priority` from routers/tasks.py. -/
def canon_priority (val : Option PyStr) : Option PyStr :=
  match val with
  | none => none
  | some v =>
    let p := pyStrip v
    if p = [] then none
    else
      let p1 := PRIORITY_CANON (pyLowerStr p)
      if p1 ∈ VALID_PRIORITIES then some p1 else none

-- ---------------------------------------------------------------------
-- models/users.py and models/tasks.py: data model
-- ---------------------------------------------------------------------

/-- `Role` from models/users.py. -/
inductive Role
  | admin
  | manager
  | employee
deriving DecidableEq, Repr

/-- The `users` table row (models/users.py `User`). -/
structure User where
  id : PyStr
  username : PyStr
  email : PyStr
  full_name : Option PyStr
  role : Role
  password_hash : Option PyStr
  created_at : Int
  updated_at : Int
deriving DecidableEq, Repr

/-- The `tasks` table row (models/tasks.py `Task`).  `status` and `priority`
are stored as their string values; `due_date` and the timestamps are integer
instants. -/
structure Task where
  id : PyStr
  title : PyStr
  description : Option PyStr
  priority : PyStr
  status : PyStr
  progress : Int
  due_date : Option Int
  assignee_id : Option PyStr
  created_at : Int
  updated_at : Int
deriving DecidableEq, Repr

/-- HTTP-level error outcomes raised by the routers.  `internalError` stands
for an exception escaping a handler (FastAPI's 500 response). -/
inductive HTTPErr
  | notFound
  | badRequest
  | unauthorized
  | forbidden
  | internalError
deriving DecidableEq, Repr

-- ---------------------------------------------------------------------
-- routers/tasks.py: helpers (query engine)
-- ---------------------------------------------------------------------

/-- `is_admin_or_manager` from routers/tasks.py.  In this embedding a `User`
always carries a `Role`, so the `hasattr`/string-fallback branches of the
source are dead and the live branch is membership in `{Role.admin,
Role.manager}`. -/
def is_admin_or_manager (u : User) : Bool :=
  u.role = Role.admin || u.role = Role.manager

/-- `is_admin` from routers/users.py (`user.role == Role.admin`). -/
def is_admin (u : User) : Bool := u.role = Role.admin

/-- Does `s` start with `pat`? -/
def startsWithPS : PyStr → PyStr → Bool
  | [], _ => true
  | _ :: _, [] => false
  | a :: as_, b :: bs => a = b && startsWithPS as_ bs

/-- Substring containment: does `hay` contain `pat` somewhere? -/
def containsPS (hay pat : PyStr) : Bool :=
  match hay with
  | [] => pat.isEmpty
  | _ :: rest => startsWithPS pat hay || containsPS rest pat

/-- The free-text predicate of `apply_common_filters`: SQL
`ILIKE '%pat%'` (ASCII case-insensitive substring) OR-combined over title,
description and the id cast to text; `ILIKE` against a NULL description is
not satisfied. -/
def qPred (pat : PyStr) (t : Task) : Bool :=
  containsPS (pyLowerStr t.title) (pyLowerStr pat)
  || (match t.description with
      | some d => containsPS (pyLowerStr d) (pyLowerStr pat)
      | none => false)
  || containsPS (pyLowerStr t.id) (pyLowerStr pat)

/-- The `if q:` block of `apply_common_filters`.  Python truthiness: a `None`
or empty `q` leaves the statement unchanged; otherwise the pattern is the
stripped query text. -/
def applyQ (q : Option PyStr) (rows : List Task) : List Task :=
  match q with
  | none => rows
  | some qs => if qs = [] then rows else rows.filter (qPred (pyStrip qs))

/-- The `if status_value:` block of `apply_common_filters`.  An empty string
is falsy in Python, so it leaves the statement unchanged; a non-empty value
that fails `canon_status` yields `stmt.where(False)`, i.e. no rows. -/
def applyStatus (sv : Option PyStr) (rows : List Task) : List Task :=
  match sv with
  | none => rows
  | some s =>
    if s = [] then rows
    else
      match canon_status (some s) with
      | none => []
      | some norm => rows.filter (fun t => t.status = norm)

/-- The overdue predicate of `apply_common_filters`: due date present and
strictly before `now`, and status not in `TERMINAL_STATUSES`. -/
def overduePred (now : Int) (t : Task) : Bool :=
  match t.due_date with
  | none => false
  | some d => decide (d < now) && !decide (t.status ∈ TERMINAL_STATUSES)

/-- The `if overdue:` block of `apply_common_filters`. -/
def applyOverdue (overdue : Bool) (now : Int) (rows : List Task) : List Task :=
  if overdue then rows.filter (overduePred now) else rows

/-- The `if assignee_id is not None:` block of `apply_common_filters`.
Equality against a NULL `assignee_id` column is not satisfied in SQL. -/
def applyAssignee (aid : Option PyStr) (rows : List Task) : List Task :=
  match aid with
  | none => rows
  | some a => rows.filter (fun t => t.assignee_id = some a)

/-- `apply_common_filters` from routers/tasks.py.  The source conjoins WHERE
clauses on one statement; here each clause is a `List.filter` pass.  The
source's early `return stmt.where(False)` is equivalent to letting the later
clauses act on the empty row set. -/
def apply_common_filters (q sv : Option PyStr) (overdue : Bool)
    (aid : Option PyStr) (now : Int) (rows : List Task) : List Task :=
  applyAssignee aid (applyOverdue overdue now (applyStatus sv (applyQ q rows)))

/-- Sort columns recognised by `parse_sort`. -/
inductive SortCol
  | updated_at
  | created_at
  | due_date
  | priority
deriving DecidableEq, Repr

/-- `parse_sort` from routers/tasks.py: default `-updated_at` (also for a
blank argument, via Python `or`), strip, a leading `-` marks descending, and
unknown keys fall back to `updated_at`. -/
def parse_sort (sort : Option PyStr) : SortCol × Bool :=
  let raw := match sort with
    | none => pstr "-updated_at"
    | some s => if s = [] then pstr "-updated_at" else s
  let key := pyStrip raw
  let desc := key.head? = some '-'
  let field := if desc then key.tail else key
  let col :=
    if field = pstr "updated_at" then SortCol.updated_at
    else if field = pstr "created_at" then SortCol.created_at
    else if field = pstr "due_date" then SortCol.due_date
    else if field = pstr "priority" then SortCol.priority
    else SortCol.updated_at
  (col, desc)

/-- Lexicographic byte order on text, SQLite's BINARY collation. -/
def pyStrLe : PyStr → PyStr → Bool
  | [], _ => true
  | _ :: _, [] => false
  | a :: as_, b :: bs =>
    if a.toNat < b.toNat then true
    else if b.toNat < a.toNat then false
    else pyStrLe as_ bs

/-- Ascending comparison on one sort column.  For `due_date`, SQL NULLs
order before every value in ascending order (SQLite). -/
def colLe (c : SortCol) (a b : Task) : Bool :=
  match c with
  | SortCol.updated_at => decide (a.updated_at ≤ b.updated_at)
  | SortCol.created_at => decide (a.created_at ≤ b.created_at)
  | SortCol.due_date =>
    match a.due_date, b.due_date with
    | none, _ => true
    | some _, none => false
    | some x, some y => decide (x ≤ y)
  | SortCol.priority => pyStrLe a.priority b.priority

/-- Insertion into a list sorted by `le`. -/
def insertSorted (le : Task → Task → Bool) (t : Task) : List Task → List Task
  | [] => [t]
  | x :: xs => if le t x then t :: x :: xs else x :: insertSorted le t xs

/-- Insertion sort, the model of SQL `ORDER BY`. -/
def sortByLe (le : Task → Task → Bool) : List Task → List Task
  | [] => []
  | x :: xs => insertSorted le x (sortByLe le xs)

/-- `stmt.order_by(*parse_sort(sort))` over the row list. -/
def sortTasks (sort : Option PyStr) (rows : List Task) : List Task :=
  let pr := parse_sort sort
  sortByLe (fun a b => if pr.2 then colLe pr.1 b a else colLe pr.1 a b) rows

/-- `paginate` from routers/tasks.py: `total` is the row count of the
statement before `OFFSET/LIMIT`; the page is
`offset((page-1)*size).limit(size)`. -/
def paginate (rows : List Task) (page size : Nat) : List Task × Nat :=
  ((rows.drop ((page - 1) * size)).take size, rows.length)

/-- `resolve_task` from routers/tasks.py.  The source tries integer PK,
string PK, then `cast(Task.id, String) == task_key`; since `Task.id` is a
TEXT column each attempt amounts to text equality on the id, so the three
attempts collapse to the first row whose id equals the key. -/
def resolve_task (store : List Task) (task_key : PyStr) : Option Task :=
  store.find? (fun t => t.id = task_key)

-- ---------------------------------------------------------------------
-- core/security.py and routers/auth.py: credentials and tokens
-- ---------------------------------------------------------------------

/-- Outcome of the external `passlib` primitive `CryptContext.verify`:
either a boolean answer, or an exception (passlib raises `UnknownHashError`
when the hash matches no configured scheme). -/
inductive PwVerifyOutcome
  | ok (b : Bool)
  | raised
deriving DecidableEq, Repr

/-- `verify_password` from core/security.py: a direct call to
`_pwd.verify(plain_password, hashed_password)` with no exception handling,
so whatever the passlib primitive `pv` does is propagated unchanged. -/
def verify_password (pv : PyStr → PyStr → PwVerifyOutcome)
    (plain hashed : PyStr) : PwVerifyOutcome :=
  pv plain hashed

/-- A model of passlib's `CryptContext(schemes=["bcrypt"]).verify`:
if the hash carries the bcrypt `$2b$` prefix the configured scheme checks it
(the actual bcrypt comparison is the parameter `check`); any other hash
format cannot be identified and raises `UnknownHashError`.  This models the
third-party library's documented behaviour, which routers/auth.py itself
acknowledges with its `except` comment "unknown/invalid hash format". -/
def passlibVerifyModel (check : PyStr → PyStr → Bool)
    (plain hashed : PyStr) : PwVerifyOutcome :=
  if startsWithPS (pstr "$2b$") hashed then PwVerifyOutcome.ok (check plain hashed)
  else PwVerifyOutcome.raised

/-- `get_user_by_identifier` from routers/auth.py: first user whose
username or email equals the identifier. -/
def get_user_by_identifier (users : List User) (ident : PyStr) : Option User :=
  users.find? (fun u => u.username = ident || u.email = ident)

/-- `authenticate_user` from routers/auth.py: unknown user, absent/empty
stored hash, a failed check, or an exception from `verify_password`
(caught by the `try/except`) all yield `none`. -/
def authenticate_user (pv : PyStr → PyStr → PwVerifyOutcome)
    (users : List User) (ident password : PyStr) : Option User :=
  match get_user_by_identifier users ident with
  | none => none
  | some user =>
    match user.password_hash with
    | none => none
    | some h =>
      if h = [] then none
      else
        match verify_password pv password h with
        | PwVerifyOutcome.raised => none
        | PwVerifyOutcome.ok false => none
        | PwVerifyOutcome.ok true => some user

/-- A bearer token as seen by `jose.jwt.decode`: the claims it carries and
the key it was signed with. -/
structure JWT where
  key : PyStr
  sub : Option PyStr
  exp : Int
deriving DecidableEq, Repr

/-- `jose.jwt.decode(token, SECRET_KEY, algorithms=[ALGORITHM])`: raises
`JWTError` (modelled as `none`) on a signature mismatch or an expired `exp`
claim; otherwise returns the payload's `sub` claim. -/
def jwtDecode (secret : PyStr) (now : Int) (tk : JWT) : Option (Option PyStr) :=
  if tk.key = secret && decide (now < tk.exp) then some tk.sub else none

/-- `get_current_user` from routers/auth.py.  A missing Authorization header
is rejected by `OAuth2PasswordBearer` with 401; a failed decode, a missing
`sub` claim, or an unknown subject raise the 401 credentials exception. -/
def get_current_user (secret : PyStr) (now : Int) (users : List User)
    (token : Option JWT) : Except HTTPErr User :=
  match token with
  | none => Except.error HTTPErr.unauthorized
  | some tk =>
    match jwtDecode secret now tk with
    | none => Except.error HTTPErr.unauthorized
    | some none => Except.error HTTPErr.unauthorized
    | some (some sub) =>
      match get_user_by_identifier users sub with
      | none => Except.error HTTPErr.unauthorized
      | some u => Except.ok u

-- ---------------------------------------------------------------------
-- routers/tasks.py: endpoints
-- ---------------------------------------------------------------------

/-- The paginated envelope `{items, page, size, total}` returned by
`/tasks/my` and `/tasks/search`. -/
structure SearchResult where
  items : List Task
  page : Nat
  size : Nat
  total : Nat
deriving DecidableEq, Repr

/-- The assignee-scope resolution of `search_tasks` (routers/tasks.py lines
204-213): `"me"` resolves to the caller's id; a non-empty all-digit value is
converted by `int(...)` and compared against the TEXT `assignee_id` column,
which SQLite does by rendering the integer back to text; anything else is no
filter.  Afterwards the role-visibility overlay forces the caller's own id
whenever the caller is neither admin nor manager. -/
def resolve_assignee (current_user : User) (assignee : Option PyStr) : Option PyStr :=
  let nominal : Option PyStr :=
    if assignee = some (pstr "me") then some current_user.id
    else
      match assignee with
      | some a => if a ≠ [] && pyIsDigits a then some (natToPyStr (pyStrToNat a)) else none
      | none => none
  if !is_admin_or_manager current_user then some current_user.id else nominal

/-- The filtered, sorted row list of `search_tasks` before pagination. -/
def search_matching (current_user : User) (q sv : Option PyStr) (overdue : Bool)
    (assignee : Option PyStr) (sort : Option PyStr) (now : Int)
    (store : List Task) : List Task :=
  sortTasks sort
    (apply_common_filters q sv overdue (resolve_assignee current_user assignee) now store)

/-- `search_tasks` (GET /tasks/search) from routers/tasks.py. -/
def search_tasks (current_user : User) (q sv : Option PyStr) (overdue : Bool)
    (assignee : Option PyStr) (page size : Nat) (sort : Option PyStr)
    (now : Int) (store : List Task) : SearchResult :=
  let rows := search_matching current_user q sv overdue assignee sort now store
  let pr := paginate rows page size
  { items := pr.1, page := page, size := size, total := pr.2 }

/-- `list_my_tasks` (GET /tasks/my) from routers/tasks.py: the common
filters with `assignee_id` fixed to the caller's id. -/
def list_my_tasks (current_user : User) (q sv : Option PyStr) (overdue : Bool)
    (page size : Nat) (sort : Option PyStr) (now : Int)
    (store : List Task) : SearchResult :=
  let rows := sortTasks sort
    (apply_common_filters q sv overdue (some current_user.id) now store)
  let pr := paginate rows page size
  { items := pr.1, page := page, size := size, total := pr.2 }

/-- `list_tasks` (GET /tasks) from routers/tasks.py: all rows ordered by
`created_at` descending. -/
def list_tasks (store : List Task) : List Task :=
  sortByLe (fun a b => decide (b.created_at ≤ a.created_at)) store

/-- `get_task` (GET /tasks/{task_key}) from routers/tasks.py. -/
def get_task (task_key : PyStr) (store : List Task) : Except HTTPErr Task :=
  match resolve_task store task_key with
  | none => Except.error HTTPErr.notFound
  | some t => Except.ok t

/-- `delete_task` (DELETE /tasks/{task_key}) from routers/tasks.py: 404 when
the key resolves to no task, otherwise the row is deleted and the response
is 204 with no body.  The function returns the resulting store. -/
def delete_task (task_key : PyStr) (store : List Task) : Except HTTPErr (List Task) :=
  match resolve_task store task_key with
  | none => Except.error HTTPErr.notFound
  | some t => Except.ok (store.filter (fun x => x.id ≠ t.id))

/-- `update_status` (PUT /tasks/{task_key}/status) from routers/tasks.py:
the payload's `status` entry is normalised; a missing or invalid value is a
400; otherwise the status is set and `updated_at` refreshed. -/
def update_status (task_key : PyStr) (status_payload : Option PyStr)
    (now : Int) (store : List Task) : Except HTTPErr (Task × List Task) :=
  match resolve_task store task_key with
  | none => Except.error HTTPErr.notFound
  | some t =>
    match canon_status status_payload with
    | none => Except.error HTTPErr.badRequest
    | some new_status =>
      let t2 := { t with status := new_status, updated_at := now }
      Except.ok (t2, store.map (fun x => if x.id = t.id then t2 else x))

/-- The body of POST /tasks after pydantic validation of `TaskCreate`
(models/tasks.py).  `status` and `priority` hold the submitted enum values
as strings; `due_date` is the pydantic-parsed date as an instant. -/
structure TaskCreate where
  title : PyStr
  description : Option PyStr := none
  priority : PyStr := pstr "medium"
  status : PyStr := pstr "not_started"
  progress : Int := 0
  due_date : Option Int := none
  assignee_id : Option PyStr := none
deriving DecidableEq, Repr

/-- `create_task` (POST /tasks) from routers/tasks.py.  The
`percent_complete` alias block is dead for this schema (`progress` is always
a key of `model_dump()` and `percent_complete` never is); `parse_due_date`
succeeds on the pydantic-parsed date; `canon_status`/`canon_priority` are
applied to the submitted value and, when they fail, the field is popped so
the `Task` entity defaults (`not_started`, `medium`) apply; `created_at` is
already set by the entity factory and `updated_at` is refreshed.  `newId` is
the generated `short_uuid`. -/
def create_task (payload : TaskCreate) (newId : PyStr) (now : Int)
    (store : List Task) : Except HTTPErr (Task × List Task) :=
  let statusVal := match canon_status (some payload.status) with
    | some s => s
    | none => pstr "not_started"
  let priorityVal := match canon_priority (some payload.priority) with
    | some p => p
    | none => pstr "medium"
  let t : Task :=
    { id := newId, title := payload.title, description := payload.description,
      priority := priorityVal, status := statusVal, progress := payload.progress,
      due_date := payload.due_date, assignee_id := payload.assignee_id,
      created_at := now, updated_at := now }
  Except.ok (t, store ++ [t])

/-- A JSON value submitted for the `percent_complete` alias of PUT /tasks:
a number, an explicit `null` (which `or 0` turns into `0`), or a value on
which `int(float(...))` raises (handled by the `except: pass`). -/
inductive PCVal
  | num (n : Int)
  | null
  | bad
deriving DecidableEq, Repr

/-- A JSON value submitted for `due_date` in PUT /tasks, by the outcome of
`parse_due_date`: the ISO parsing is delegated to the datetime library, so a
raw value either parses to an instant or does not (a `null` also yields
`None`). -/
inductive DueRaw
  | parseable (ts : Int)
  | unparseable
deriving DecidableEq, Repr

/-- `parse_due_date` from routers/tasks.py, by outcome. -/
def parse_due_date : Option DueRaw → Option Int
  | some (DueRaw.parseable ts) => some ts
  | _ => none

/-- The raw dict body of PUT /tasks/{task_key} (the route deliberately
accepts `dict` rather than a schema).  The outer `Option` of each field is
"key present in the dict"; for nullable columns the inner `Option`
distinguishes a JSON `null` from a string.  An `updated_at` entry is not
modelled because the handler unconditionally overwrites `updated_at` after
the `setattr` loop. -/
structure UpdatePayload where
  id : Option PyStr := none
  title : Option PyStr := none
  description : Option (Option PyStr) := none
  priority : Option (Option PyStr) := none
  status : Option (Option PyStr) := none
  progress : Option Int := none
  percent_complete : Option PCVal := none
  due_date : Option DueRaw := none
  assignee_id : Option (Option PyStr) := none
  created_at : Option Int := none
deriving DecidableEq, Repr

/-- The field-application phase of `update_task` (routers/tasks.py lines
285-321): normalise `status`/`priority` dropping the key when normalisation
fails; turn `percent_complete` into a clamped `progress` (an exception in
`int(float(...))` leaves `progress` untouched); keep `due_date` only when it
parses; then `setattr` every remaining entry onto the task and refresh
`updated_at`. -/
def applyUpdate (t : Task) (p : UpdatePayload) (now : Int) : Task :=
  let statusNew : Option PyStr := match p.status with
    | none => none
    | some v => canon_status v
  let priorityNew : Option PyStr := match p.priority with
    | none => none
    | some v => canon_priority v
  let progressNew : Option Int := match p.percent_complete with
    | some (PCVal.num n) => some (max 0 (min 100 n))
    | some PCVal.null => some 0
    | some PCVal.bad => p.progress
    | none => p.progress
  let dueNew : Option Int := parse_due_date p.due_date
  { id := match p.id with | some v => v | none => t.id,
    title := match p.title with | some v => v | none => t.title,
    description := match p.description with | some v => v | none => t.description,
    priority := match priorityNew with | some v => v | none => t.priority,
    status := match statusNew with | some v => v | none => t.status,
    progress := match progressNew with | some v => v | none => t.progress,
    due_date := match dueNew with | some d => some d | none => t.due_date,
    assignee_id := match p.assignee_id with | some v => v | none => t.assignee_id,
    created_at := match p.created_at with | some v => v | none => t.created_at,
    updated_at := now }

/-- `update_task` (PUT /tasks/{task_key}) from routers/tasks.py. -/
def update_task (task_key : PyStr) (payload : UpdatePayload) (now : Int)
    (store : List Task) : Except HTTPErr (Task × List Task) :=
  match resolve_task store task_key with
  | none => Except.error HTTPErr.notFound
  | some t =>
    let t2 := applyUpdate t payload now
    Except.ok (t2, store.map (fun x => if x.id = t.id then t2 else x))

-- ---------------------------------------------------------------------
-- routers/users.py: user creation and password change
-- ---------------------------------------------------------------------

/-- The body of POST /users after pydantic validation of `UserCreate`
(models/users.py); `role` defaults to employee. -/
structure UserCreate where
  username : PyStr
  email : PyStr
  full_name : Option PyStr := none
  role : Role := Role.employee
  password : PyStr
deriving DecidableEq, Repr

/-- `create_user` (POST /users) from routers/users.py: bootstrap when the
directory is empty (no admin check, role forced to admin); otherwise the
acting principal must be admin; then username/email uniqueness; the stored
credential is the hash of the submitted password (`hashPw` is the external
bcrypt primitive `get_password_hash`). -/
def create_user (hashPw : PyStr → PyStr) (current : User) (payload : UserCreate)
    (newId : PyStr) (now : Int) (users : List User) :
    Except HTTPErr (User × List User) :=
  let is_bootstrap := users.isEmpty
  if !is_bootstrap && !is_admin current then Except.error HTTPErr.forbidden
  else if (users.find? (fun u => u.username = payload.username)).isSome then
    Except.error HTTPErr.badRequest
  else if (users.find? (fun u => u.email = payload.email)).isSome then
    Except.error HTTPErr.badRequest
  else
    let role_value := if is_bootstrap then Role.admin else payload.role
    let user : User :=
      { id := newId, username := payload.username, email := payload.email,
        full_name := payload.full_name, role := role_value,
        password_hash := some (hashPw payload.password),
        created_at := now, updated_at := now }
    Except.ok (user, users ++ [user])

/-- `change_my_password` (PATCH /users/me/password) from routers/users.py:
a missing/empty new password or a missing/empty current password is a 400;
then `verify_password(current_password, user.password_hash or "")` is called
with NO exception handling, so an exception from the hash primitive escapes
the handler (a 500, `internalError`); a clean `false` is the 400 "Current
password is incorrect"; on success the hash is replaced. -/
def change_my_password (pv : PyStr → PyStr → PwVerifyOutcome)
    (hashPw : PyStr → PyStr) (user : User)
    (current_password new_password : Option PyStr) : Except HTTPErr User :=
  match new_password with
  | none => Except.error HTTPErr.badRequest
  | some np =>
    if np = [] then Except.error HTTPErr.badRequest
    else
      match current_password with
      | none => Except.error HTTPErr.badRequest
      | some cp =>
        if cp = [] then Except.error HTTPErr.badRequest
        else
          let storedHash := match user.password_hash with
            | some h => h
            | none => []
          match verify_password pv cp storedHash with
          | PwVerifyOutcome.raised => Except.error HTTPErr.internalError
          | PwVerifyOutcome.ok false => Except.error HTTPErr.badRequest
          | PwVerifyOutcome.ok true =>
            Except.ok { user with password_hash := some (hashPw np) }

-- ---------------------------------------------------------------------
-- Request-level dispatch: which routes consult the bearer token
-- ---------------------------------------------------------------------

/-- Request-level POST /tasks.  The route declares no
`Depends(get_current_user)`, so the framework never consults the
Authorization header: the handler runs regardless of `auth`. -/
def handleCreateTask (_auth : Option JWT) (payload : TaskCreate)
    (newId : PyStr) (now : Int) (store : List Task) :
    Except HTTPErr (Task × List Task) :=
  create_task payload newId now store

/-- Request-level GET /tasks: no auth dependency. -/
def handleListTasks (_auth : Option JWT) (store : List Task) : List Task :=
  list_tasks store

/-- Request-level GET /tasks/{task_key}: no auth dependency. -/
def handleGetTask (_auth : Option JWT) (task_key : PyStr) (store : List Task) :
    Except HTTPErr Task :=
  get_task task_key store

/-- Request-level PUT /tasks/{task_key}: no auth dependency. -/
def handleUpdateTask (_auth : Option JWT) (task_key : PyStr)
    (payload : UpdatePayload) (now : Int) (store : List Task) :
    Except HTTPErr (Task × List Task) :=
  update_task task_key payload now store

/-- Request-level DELETE /tasks/{task_key}: no auth dependency. -/
def handleDeleteTask (_auth : Option JWT) (task_key : PyStr)
    (store : List Task) : Except HTTPErr (List Task) :=
  delete_task task_key store

/-- Request-level PUT /tasks/{task_key}/status: no auth dependency. -/
def handleUpdateStatus (_auth : Option JWT) (task_key : PyStr)
    (status_payload : Option PyStr) (now : Int) (store : List Task) :
    Except HTTPErr (Task × List Task) :=
  update_status task_key status_payload now store

/-- Request-level GET /tasks/search: `current_user =
Depends(get_current_user)`, so the bearer token is verified first. -/
def handleSearchTasks (secret : PyStr) (users : List User) (auth : Option JWT)
    (q sv : Option PyStr) (overdue : Bool) (assignee : Option PyStr)
    (page size : Nat) (sort : Option PyStr) (now : Int) (store : List Task) :
    Except HTTPErr SearchResult :=
  match get_current_user secret now users auth with
  | Except.error e => Except.error e
  | Except.ok u => Except.ok (search_tasks u q sv overdue assignee page size sort now store)

/-- Request-level GET /tasks/my: token verified first. -/
def handleMyTasks (secret : PyStr) (users : List User) (auth : Option JWT)
    (q sv : Option PyStr) (overdue : Bool) (page size : Nat)
    (sort : Option PyStr) (now : Int) (store : List Task) :
    Except HTTPErr SearchResult :=
  match get_current_user secret now users auth with
  | Except.error e => Except.error e
  | Except.ok u => Except.ok (list_my_tasks u q sv overdue page size sort now store)

-- ---------------------------------------------------------------------
-- Lemmas about the string model
-- ---------------------------------------------------------------------

theorem pyIsSpace_pyLower (c : Char) : pyIsSpace (pyLower c) = pyIsSpace c := by
  unfold pyLower
  cases h : upperLowerPairs.find? (fun q => q.1 = c) with
  | none => rfl
  | some q =>
    have hmem : q ∈ upperLowerPairs := List.mem_of_find?_eq_some h
    have hc : q.1 = c := by simpa using List.find?_some h
    have hall : ∀ r ∈ upperLowerPairs, pyIsSpace r.1 = false ∧ pyIsSpace r.2 = false := by
      decide
    obtain ⟨h1, h2⟩ := hall q hmem
    rw [h2, ← hc, h1]

theorem pyIsSpace_replChar_dash (c : Char) :
    pyIsSpace (replChar '_' '-' c) = pyIsSpace c := by
  unfold replChar
  split
  · simp_all [pyIsSpace]
  · rfl

theorem pyStrip_map (f : Char → Char) (hf : ∀ c, pyIsSpace (f c) = pyIsSpace c)
    (l : PyStr) : pyStrip (l.map f) = (pyStrip l).map f := by
  have hcomp : pyIsSpace ∘ f = pyIsSpace := funext hf
  unfold pyStrip
  rw [List.dropWhile_map, hcomp, ← List.map_reverse, List.dropWhile_map, hcomp,
    ← List.map_reverse]

/-- The character-level pipeline `lower ∘ (replace _ by -)`: two inputs that
agree after this identification are indistinguishable to `canon_status`. -/
def canonKey (c : Char) : Char := pyLower (replChar '_' '-' c)

theorem pyIsSpace_canonKey (c : Char) : pyIsSpace (canonKey c) = pyIsSpace c := by
  unfold canonKey
  rw [pyIsSpace_pyLower, pyIsSpace_replChar_dash]

theorem canon_chain_pointwise (c : Char) :
    replChar '-' ' ' (replChar '_' ' ' (pyLower c)) =
      replChar '-' ' ' (replChar '_' ' ' (pyLower (replChar '_' '-' c))) := by
  by_cases h : c = '_'
  · subst h; rfl
  · simp [replChar, h]

/-- The body of `canon_status` factors through `canonKey` character by
character. -/
theorem canon_body_factor (l : PyStr) :
    replaceChar '-' ' ' (replaceChar '_' ' ' (pyLowerStr l)) =
      (l.map canonKey).map (fun c => replChar '-' ' ' (replChar '_' ' ' c)) := by
  unfold replaceChar pyLowerStr canonKey
  rw [List.map_map, List.map_map, List.map_map]
  exact List.map_congr_left (fun c _ => canon_chain_pointwise c)

theorem canon_status_factor (s t : PyStr)
    (hst : s.map canonKey = t.map canonKey) :
    canon_status (some s) = canon_status (some t) := by
  have hstrip : (pyStrip s).map canonKey = (pyStrip t).map canonKey := by
    rw [← pyStrip_map canonKey pyIsSpace_canonKey,
      ← pyStrip_map canonKey pyIsSpace_canonKey, hst]
  have hempt : (pyStrip s = []) ↔ (pyStrip t = []) := by
    rw [← List.map_eq_nil_iff (f := canonKey), hstrip, List.map_eq_nil_iff]
  have hbody : replaceChar '-' ' ' (replaceChar '_' ' ' (pyLowerStr (pyStrip s))) =
      replaceChar '-' ' ' (replaceChar '_' ' ' (pyLowerStr (pyStrip t))) := by
    rw [canon_body_factor, canon_body_factor, hstrip]
  unfold canon_status
  by_cases h : pyStrip s = []
  · simp only [h, hempt.mp h, if_pos rfl]
  · have h2 : ¬ pyStrip t = [] := fun ht => h (hempt.mpr ht)
    simp only [if_neg h, if_neg h2, hbody]

theorem canon_status_range (s r : PyStr) (h : canon_status (some s) = some r) :
    r ∈ VALID_STATUSES := by
  unfold canon_status at h
  by_cases he : pyStrip s = []
  · simp [he] at h
  · simp only [if_neg he] at h
    split at h
    · cases h; assumption
    · cases h

theorem canon_status_blank (s : PyStr) (h : ∀ c ∈ s, pyIsSpace c = true) :
    canon_status (some s) = none := by
  have h1 : s.dropWhile pyIsSpace = [] := List.dropWhile_eq_nil_iff.mpr h
  have h2 : pyStrip s = [] := by
    unfold pyStrip
    rw [h1]
    rfl
  unfold canon_status
  simp [h2]

theorem canon_status_idem (v : PyStr) (hv : v ∈ VALID_STATUSES) :
    canon_status (some v) = some v := by
  simp only [VALID_STATUSES, List.mem_cons, List.not_mem_nil, or_false] at hv
  rcases hv with rfl | rfl | rfl | rfl | rfl | rfl <;> rfl

/-- C8: `canon_status` is a total function of its input string (it is a Lean
function, hence never fails); it is insensitive to case and to the
interchange of hyphens and underscores, in the sense that two inputs agreeing
after lowercasing and identifying `_` with `-` normalise identically; the
listed UI spellings of "to do" all normalise to `not_started`; every
already-canonical status is returned unchanged; `None` and all-whitespace
input give "not provided"; and every successful normalisation lands in
`VALID_STATUSES`. -/
theorem C8_normalize_status :
    (∀ s t : PyStr, pyLowerStr (replaceChar '_' '-' s) =
        pyLowerStr (replaceChar '_' '-' t) →
      canon_status (some s) = canon_status (some t)) ∧
    (canon_status (some (pstr "to do")) = some (pstr "not_started") ∧
     canon_status (some (pstr "todo")) = some (pstr "not_started") ∧
     canon_status (some (pstr "To Do")) = some (pstr "not_started") ∧
     canon_status (some (pstr "to-do")) = some (pstr "not_started") ∧
     canon_status (some (pstr "TODO")) = some (pstr "not_started")) ∧
    (∀ v ∈ VALID_STATUSES, canon_status (some v) = some v) ∧
    canon_status none = none ∧
    (∀ s : PyStr, (∀ c ∈ s, pyIsSpace c = true) → canon_status (some s) = none) ∧
    (∀ s r : PyStr, canon_status (some s) = some r → r ∈ VALID_STATUSES) := by
  refine ⟨?_, ⟨rfl, rfl, rfl, rfl, rfl⟩, canon_status_idem, rfl,
    canon_status_blank, canon_status_range⟩
  intro s t hst
  apply canon_status_factor
  have hs : s.map canonKey = pyLowerStr (replaceChar '_' '-' s) := by
    unfold canonKey pyLowerStr replaceChar
    rw [List.map_map]
    rfl
  have ht : t.map canonKey = pyLowerStr (replaceChar '_' '-' t) := by
    unfold canonKey pyLowerStr replaceChar
    rw [List.map_map]
    rfl
  rw [hs, ht, hst]

/-- Witness for C8: the case/hyphen-insensitivity applied at "TO-DO" versus
"to_do", the idempotence applied at "completed", and the range property
applied at "todo". -/
theorem C8_normalize_status_witness :
    canon_status (some (pstr "TO-DO")) = canon_status (some (pstr "to_do")) ∧
    canon_status (some (pstr "completed")) = some (pstr "completed") ∧
    pstr "not_started" ∈ VALID_STATUSES := by
  refine ⟨C8_normalize_status.1 (pstr "TO-DO") (pstr "to_do") rfl,
    C8_normalize_status.2.2.1 (pstr "completed") ?_,
    C8_normalize_status.2.2.2.2.2 (pstr "todo") (pstr "not_started") rfl⟩
  simp [VALID_STATUSES]

-- ---------------------------------------------------------------------
-- Lemmas about the query engine
-- ---------------------------------------------------------------------

theorem applyQ_some (qs : PyStr) (l : List Task) (hq : qs ≠ []) :
    applyQ (some qs) l = l.filter (qPred (pyStrip qs)) := by
  simp [applyQ, hq]

theorem applyStatus_invalid (s : PyStr) (l : List Task) (hs : s ≠ [])
    (hc : canon_status (some s) = none) : applyStatus (some s) l = [] := by
  simp [applyStatus, hs, hc]

theorem applyStatus_valid (s : PyStr) (l : List Task) (norm : PyStr)
    (hs : s ≠ []) (hc : canon_status (some s) = some norm) :
    applyStatus (some s) l = l.filter (fun t => t.status = norm) := by
  simp [applyStatus, hs, hc]

theorem mem_applyQ {q : Option PyStr} {l : List Task} {t : Task}
    (h : t ∈ applyQ q l) : t ∈ l := by
  cases q with
  | none => exact h
  | some qs =>
    by_cases hq : qs = []
    · simpa [applyQ, hq] using h
    · rw [applyQ_some qs l hq] at h
      exact (List.mem_filter.mp h).1

theorem mem_applyStatus {sv : Option PyStr} {l : List Task} {t : Task}
    (h : t ∈ applyStatus sv l) : t ∈ l := by
  cases sv with
  | none => exact h
  | some s =>
    by_cases hs : s = []
    · simpa [applyStatus, hs] using h
    · cases hc : canon_status (some s) with
      | none => rw [applyStatus_invalid s l hs hc] at h; cases h
      | some norm =>
        rw [applyStatus_valid s l norm hs hc] at h
        exact (List.mem_filter.mp h).1

theorem mem_applyOverdue_true {now : Int} {l : List Task} {t : Task} :
    t ∈ applyOverdue true now l ↔ t ∈ l ∧ overduePred now t = true := by
  unfold applyOverdue
  exact List.mem_filter

theorem mem_applyAssignee {aid : Option PyStr} {l : List Task} {t : Task} :
    t ∈ applyAssignee aid l ↔ t ∈ l ∧ (aid = none ∨ t.assignee_id = aid) := by
  unfold applyAssignee
  cases aid with
  | none => simp
  | some a => simp [List.mem_filter]

theorem overduePred_iff {now : Int} {t : Task} :
    overduePred now t = true ↔
      (∃ d, t.due_date = some d ∧ d < now) ∧ t.status ∉ TERMINAL_STATUSES := by
  unfold overduePred
  cases h : t.due_date with
  | none => simp [h]
  | some d => simp [h]

/-- C4: with the overdue flag set, a task is kept by the common filters if
and only if it is kept by the same query without the flag AND its due date
is present and strictly earlier than the current time AND its status is not
in `TERMINAL_STATUSES`.  In particular a task with no due date is never in
the overdue results. -/
theorem C4_overdue_filter (q sv : Option PyStr) (aid : Option PyStr)
    (now : Int) (store : List Task) (t : Task) :
    t ∈ apply_common_filters q sv true aid now store ↔
      (t ∈ apply_common_filters q sv false aid now store ∧
       (∃ d, t.due_date = some d ∧ d < now) ∧ t.status ∉ TERMINAL_STATUSES) := by
  unfold apply_common_filters applyOverdue
  constructor
  · intro h
    have h1 := mem_applyAssignee.mp h
    have h2 := List.mem_filter.mp h1.1
    have h3 := overduePred_iff.mp h2.2
    exact ⟨mem_applyAssignee.mpr ⟨h2.1, h1.2⟩, h3⟩
  · intro ⟨hmem, hdue, hterm⟩
    have h1 := mem_applyAssignee.mp hmem
    refine mem_applyAssignee.mpr ⟨?_, h1.2⟩
    exact List.mem_filter.mpr ⟨h1.1, overduePred_iff.mpr ⟨hdue, hterm⟩⟩

/-- The example task shared by the concrete theorems: an in-progress task
with a due date, assigned to user `u1`. -/
def tEx : Task where
  id := pstr "aaa01"
  title := pstr "Ship report"
  description := none
  priority := pstr "medium"
  status := pstr "in_progress"
  progress := 10
  due_date := some 5
  assignee_id := some (pstr "u1")
  created_at := 0
  updated_at := 0

/-- An admin principal shared by the concrete theorems. -/
def uAdminEx : User where
  id := pstr "ua001"
  username := pstr "alice"
  email := pstr "alice@x.com"
  full_name := none
  role := Role.admin
  password_hash := some (pstr "$2b$12$hash")
  created_at := 0
  updated_at := 0

/-- An employee principal shared by the concrete theorems. -/
def uEmpEx : User where
  id := pstr "u1"
  username := pstr "bob"
  email := pstr "bob@x.com"
  full_name := none
  role := Role.employee
  password_hash := some (pstr "$2b$12$hash2")
  created_at := 0
  updated_at := 0

/-- Counterexample to C3 as stated: the empty string is a supplied status
value that fails normalization (`canon_status` yields "not provided"), yet
the query does NOT return an empty result set with total 0 — because
`if status_value:` treats the empty string as falsy, the filter is skipped
entirely and the query behaves as if the filter were absent, returning the
full store. -/
theorem C3_counterexample :
    canon_status (some (pstr "")) = none ∧
    (search_tasks uAdminEx none (some (pstr "")) false none 1 50 none 10
        [tEx]).total = 1 ∧
    (search_tasks uAdminEx none (some (pstr "")) false none 1 50 none 10
        [tEx]).items = [tEx] :=
  ⟨rfl, rfl, rfl⟩

/-- C3 as amended: for every supplied NON-EMPTY status value that fails
normalization, the query returns an empty item list with total 0, never an
error and never the unfiltered rows, for any task store and any other
filter parameters.  (A supplied empty string is instead treated as "filter
absent" by Python truthiness.) -/
theorem C3_invalid_status_amended (u : User) (q : Option PyStr) (sv : PyStr)
    (overdue : Bool) (assignee : Option PyStr) (page size : Nat)
    (sort : Option PyStr) (now : Int) (store : List Task)
    (hne : sv ≠ []) (hnorm : canon_status (some sv) = none) :
    (search_tasks u q (some sv) overdue assignee page size sort now store).items = [] ∧
    (search_tasks u q (some sv) overdue assignee page size sort now store).total = 0 := by
  have hstat : applyStatus (some sv) (applyQ q store) = [] :=
    applyStatus_invalid sv (applyQ q store) hne hnorm
  have hfilters : apply_common_filters q (some sv) overdue
      (resolve_assignee u assignee) now store = [] := by
    unfold apply_common_filters
    rw [hstat]
    cases overdue <;> cases resolve_assignee u assignee <;>
      simp [applyOverdue, applyAssignee]
  have hsorted : search_matching u q (some sv) overdue assignee sort now store = [] := by
    unfold search_matching
    rw [hfilters]
    rfl
  constructor <;> simp [search_tasks, hsorted, paginate]

/-- Witness for the amended C3 at the concrete invalid value "blocked". -/
theorem C3_invalid_status_amended_witness :
    (search_tasks uAdminEx none (some (pstr "blocked")) false none 1 50 none 10
        [tEx]).items = [] ∧
    (search_tasks uAdminEx none (some (pstr "blocked")) false none 1 50 none 10
        [tEx]).total = 0 :=
  C3_invalid_status_amended uAdminEx none (pstr "blocked") false none 1 50 none 10
    [tEx] (by decide) rfl

-- ---------------------------------------------------------------------
-- Lemmas about sorting and pagination
-- ---------------------------------------------------------------------

theorem mem_insertSorted (le : Task → Task → Bool) (t x : Task) :
    ∀ l : List Task, x ∈ insertSorted le t l ↔ x = t ∨ x ∈ l := by
  intro l
  induction l with
  | nil => simp [insertSorted]
  | cons a as ih =>
    by_cases h : le t a
    · simp [insertSorted, h, List.mem_cons]
    · simp [insertSorted, h, List.mem_cons, ih]
      tauto

theorem length_insertSorted (le : Task → Task → Bool) (t : Task) :
    ∀ l : List Task, (insertSorted le t l).length = l.length + 1 := by
  intro l
  induction l with
  | nil => rfl
  | cons a as ih =>
    by_cases h : le t a
    · simp [insertSorted, h]
    · simp [insertSorted, h, ih]

theorem mem_sortByLe (le : Task → Task → Bool) (x : Task) :
    ∀ l : List Task, x ∈ sortByLe le l ↔ x ∈ l := by
  intro l
  induction l with
  | nil => simp [sortByLe]
  | cons a as ih =>
    simp [sortByLe, mem_insertSorted, ih, List.mem_cons]

theorem length_sortByLe (le : Task → Task → Bool) :
    ∀ l : List Task, (sortByLe le l).length = l.length := by
  intro l
  induction l with
  | nil => rfl
  | cons a as ih => simp [sortByLe, length_insertSorted, ih]

-- ---------------------------------------------------------------------
-- C1: role-based visibility of /tasks/search
-- ---------------------------------------------------------------------

/-- C1: for every search executed by a principal whose role is neither
admin nor manager, whatever assignee parameter is supplied, every returned
item is assigned to the principal: the assignee filter is forcibly the
principal's own id. -/
theorem C1_role_visibility (u : User) (q sv : Option PyStr) (overdue : Bool)
    (assignee : Option PyStr) (page size : Nat) (sort : Option PyStr)
    (now : Int) (store : List Task)
    (hrole : is_admin_or_manager u = false) :
    ∀ t ∈ (search_tasks u q sv overdue assignee page size sort now store).items,
      t.assignee_id = some u.id := by
  intro t ht
  have haid : resolve_assignee u assignee = some u.id := by
    simp [resolve_assignee, hrole]
  have hitems : (search_tasks u q sv overdue assignee page size sort now store).items =
      ((search_matching u q sv overdue assignee sort now store).drop
        ((page - 1) * size)).take size := rfl
  rw [hitems] at ht
  have h1 : t ∈ search_matching u q sv overdue assignee sort now store :=
    List.drop_subset _ _ (List.take_subset _ _ ht)
  unfold search_matching sortTasks at h1
  have h2 : t ∈ apply_common_filters q sv overdue (resolve_assignee u assignee)
      now store := (mem_sortByLe _ t _).mp h1
  rw [haid] at h2
  unfold apply_common_filters at h2
  rcases (mem_applyAssignee.mp h2).2 with hno | hyes
  · cases hno
  · exact hyes

/-- A task assigned to a different principal, used to exercise the
visibility override. -/
def tOtherEx : Task where
  id := pstr "bbb02"
  title := pstr "Budget review"
  description := some (pstr "Q3 budget")
  priority := pstr "high"
  status := pstr "not_started"
  progress := 0
  due_date := none
  assignee_id := some (pstr "2")
  created_at := 1
  updated_at := 1

/-- Witness for C1: although employee `bob` queries with `assignee=2`
(another principal's id) against a store holding both his task and the
other principal's, the task he receives is his own. -/
theorem C1_role_visibility_witness :
    tEx ∈ (search_tasks uEmpEx none none false (some (pstr "2")) 1 50 none 10
        [tEx, tOtherEx]).items ∧
    tEx.assignee_id = some uEmpEx.id := by
  refine ⟨by decide, ?_⟩
  exact C1_role_visibility uEmpEx none none false (some (pstr "2")) 1 50 none 10
    [tEx, tOtherEx] (by decide) tEx (by decide)

-- ---------------------------------------------------------------------
-- C9: pagination envelope
-- ---------------------------------------------------------------------

/-- C9: for every filtered query with page ≥ 1 and size in [1, 100], the
envelope's `total` is the number of rows matching the filters before
pagination, and item `i` of the page is row `(page-1)*size + i` of the
sorted matching rows. -/
theorem C9_pagination (u : User) (q sv : Option PyStr) (overdue : Bool)
    (assignee : Option PyStr) (sort : Option PyStr) (now : Int)
    (store : List Task) (page size : Nat)
    (hp : 1 ≤ page) (hs1 : 1 ≤ size) (hs2 : size ≤ 100) :
    (search_tasks u q sv overdue assignee page size sort now store).total =
      (apply_common_filters q sv overdue (resolve_assignee u assignee) now
        store).length ∧
    ∀ i, i < size →
      (search_tasks u q sv overdue assignee page size sort now store).items[i]? =
        (search_matching u q sv overdue assignee sort now store)[(page - 1) * size + i]? := by
  constructor
  · show (search_matching u q sv overdue assignee sort now store).length = _
    unfold search_matching sortTasks
    exact length_sortByLe _ _
  · intro i hi
    show (((search_matching u q sv overdue assignee sort now store).drop
        ((page - 1) * size)).take size)[i]? = _
    rw [List.getElem?_take, if_pos hi, List.getElem?_drop]

/-- Row `i` of the 25-row store used by the pagination witness. -/
def mkTEx (i : Nat) : Task where
  id := natToPyStr i
  title := pstr "chore"
  description := none
  priority := pstr "medium"
  status := pstr "not_started"
  progress := 0
  due_date := none
  assignee_id := none
  created_at := Int.ofNat i
  updated_at := Int.ofNat i

/-- A 25-row store with strictly increasing `updated_at`. -/
def store25Ex : List Task := (List.range 25).map mkTEx

/-- Witness for C9: page 2 of size 10 over 25 matching rows (sorted by
ascending `updated_at`) has total 25 = the pre-pagination match count, and
its first item is row 11 (index 10) of the matching rows. -/
theorem C9_pagination_witness :
    (search_tasks uAdminEx none none false none 2 10 (some (pstr "updated_at"))
        0 store25Ex).total =
      (apply_common_filters none none false (resolve_assignee uAdminEx none) 0
        store25Ex).length ∧
    (search_tasks uAdminEx none none false none 2 10 (some (pstr "updated_at"))
        0 store25Ex).items[0]? =
      (search_matching uAdminEx none none false none (some (pstr "updated_at"))
        0 store25Ex)[10]? ∧
    (search_tasks uAdminEx none none false none 2 10 (some (pstr "updated_at"))
        0 store25Ex).total = 25 := by
  have h := C9_pagination uAdminEx none none false none
    (some (pstr "updated_at")) 0 store25Ex 2 10 (by decide) (by decide) (by decide)
  exact ⟨h.1, h.2 0 (by decide), rfl⟩

-- ---------------------------------------------------------------------
-- C2: which task endpoints require a bearer token
-- ---------------------------------------------------------------------

/-- Counterexample to C2 as stated: DELETE /tasks/{key} invoked with no
bearer token at all does not fail with InvalidToken — it succeeds (204) and
removes the task from the store. -/
theorem C2_counterexample :
    handleDeleteTask none (pstr "aaa01") [tEx] = Except.ok [] ∧
    ([] : List Task) ≠ [tEx] :=
  ⟨rfl, by decide⟩

/-- C2 as amended: none of the six task CRUD endpoints (POST /tasks,
GET /tasks, GET /tasks/{key}, PUT /tasks/{key}, DELETE /tasks/{key},
PUT /tasks/{key}/status) consults the bearer token — each behaves
identically for any `auth` value, and DELETE succeeds without a token on
any resolvable key; only GET /tasks/search and GET /tasks/my verify the
token, failing with 401 when it is missing or signed with the wrong key. -/
theorem C2_token_checks_amended (auth : Option JWT) (secret : PyStr)
    (users : List User) (key : PyStr) (pl : TaskCreate) (up : UpdatePayload)
    (sp : Option PyStr) (nid : PyStr) (now : Int) (store : List Task)
    (q sv : Option PyStr) (od : Bool) (asg : Option PyStr) (pg sz : Nat)
    (srt : Option PyStr) (t : Task) (tk : JWT)
    (hres : resolve_task store key = some t)
    (hkey : tk.key ≠ secret) :
    handleCreateTask auth pl nid now store = create_task pl nid now store ∧
    handleListTasks auth store = list_tasks store ∧
    handleGetTask auth key store = get_task key store ∧
    handleUpdateTask auth key up now store = update_task key up now store ∧
    handleDeleteTask auth key store = delete_task key store ∧
    handleUpdateStatus auth key sp now store = update_status key sp now store ∧
    handleDeleteTask none key store =
      Except.ok (store.filter (fun x => x.id ≠ t.id)) ∧
    handleSearchTasks secret users none q sv od asg pg sz srt now store =
      Except.error HTTPErr.unauthorized ∧
    handleSearchTasks secret users (some tk) q sv od asg pg sz srt now store =
      Except.error HTTPErr.unauthorized ∧
    handleMyTasks secret users none q sv od pg sz srt now store =
      Except.error HTTPErr.unauthorized := by
  refine ⟨rfl, rfl, rfl, rfl, rfl, rfl, ?_, rfl, ?_, rfl⟩
  · unfold handleDeleteTask delete_task
    rw [hres]
  · unfold handleSearchTasks get_current_user jwtDecode
    simp [hkey]

/-- A token signed with the wrong key. -/
def tkBadEx : JWT where
  key := pstr "attacker-key"
  sub := some (pstr "alice")
  exp := 1000

/-- Witness for the amended C2: deleting `aaa01` with no token succeeds and
drops the row, and a search with a wrongly-signed token is a 401. -/
theorem C2_token_checks_amended_witness :
    handleDeleteTask none (pstr "aaa01") [tEx, tOtherEx] =
      Except.ok ([tEx, tOtherEx].filter (fun x => x.id ≠ tEx.id)) ∧
    handleSearchTasks (pstr "change-this-in-production-please") [uAdminEx]
        (some tkBadEx) none none false none 1 50 none 0 [tEx, tOtherEx] =
      Except.error HTTPErr.unauthorized := by
  have h := C2_token_checks_amended (some tkBadEx)
    (pstr "change-this-in-production-please") [uAdminEx] (pstr "aaa01")
    { title := pstr "x" } {} none
    (pstr "n1") 0 [tEx, tOtherEx] none none false none 1 50 none tEx tkBadEx
    rfl (by decide)
  exact ⟨h.2.2.2.2.2.2.1, h.2.2.2.2.2.2.2.2.1⟩

-- ---------------------------------------------------------------------
-- C5: the progress range invariant
-- ---------------------------------------------------------------------

/-- The raw-dict update payload `{"progress": 150}`. -/
def c5Payload : UpdatePayload := { progress := some 150 }

/-- The row produced by that update. -/
def c5Result : Task := { tEx with progress := 150, updated_at := 9 }

/-- C5 fails on the code (the claim states the intended invariant, which the
model's own `Field(ge=0, le=100)` declaration documents): PUT /tasks/{key}
with a direct `progress` entry is applied by `setattr` with no validation,
so `{"progress": 150}` is stored as-is — the update neither fails with a
ValidationError nor clamps, and the persisted progress leaves [0, 100]. -/
theorem C5_progress_invariant_bug :
    update_task (pstr "aaa01") c5Payload 9 [tEx] =
      Except.ok (c5Result, [c5Result]) ∧
    c5Result.progress = 150 ∧
    ¬ (0 ≤ c5Result.progress ∧ c5Result.progress ≤ 100) :=
  ⟨rfl, rfl, by decide⟩

-- ---------------------------------------------------------------------
-- C6: the bootstrap rule of user creation
-- ---------------------------------------------------------------------

/-- The account produced by a bootstrap creation: the payload's identity
fields with the role forced to admin. -/
def bootUser (hashPw : PyStr → PyStr) (payload : UserCreate) (newId : PyStr)
    (now : Int) : User where
  id := newId
  username := payload.username
  email := payload.email
  full_name := payload.full_name
  role := Role.admin
  password_hash := some (hashPw payload.password)
  created_at := now
  updated_at := now

/-- C6: creating a user against an EMPTY directory always succeeds and the
created account's role is admin, whatever role the payload requested and
whoever the acting principal is (the admin-only restriction is bypassed);
against a NON-EMPTY directory, a non-admin principal gets Forbidden. -/
theorem C6_bootstrap_admin (hashPw : PyStr → PyStr) (current : User)
    (payload : UserCreate) (newId : PyStr) (now : Int) (users : List User)
    (hne : users ≠ []) (hadm : is_admin current = false) :
    (∃ u rest, create_user hashPw current payload newId now [] =
        Except.ok (u, rest) ∧ u.role = Role.admin) ∧
    create_user hashPw current payload newId now users =
      Except.error HTTPErr.forbidden := by
  constructor
  · exact ⟨bootUser hashPw payload newId now, [bootUser hashPw payload newId now],
      rfl, rfl⟩
  · unfold create_user
    cases users with
    | nil => exact absurd rfl hne
    | cons a as => simp [hadm, List.isEmpty]

/-- The payload requesting an employee role, used by the bootstrap witness. -/
def plUserEx : UserCreate where
  username := pstr "carol"
  email := pstr "carol@x.com"
  full_name := none
  role := Role.employee
  password := pstr "pw123"

/-- Witness for C6: employee `bob` cannot create a user once the directory
holds `alice`, and bootstrap creation on the empty directory yields an
admin account. -/
theorem C6_bootstrap_admin_witness :
    create_user (fun s => s) uEmpEx plUserEx (pstr "n1") 0 [uAdminEx] =
      Except.error HTTPErr.forbidden ∧
    (∃ u rest, create_user (fun s => s) uEmpEx plUserEx (pstr "n1") 0 [] =
        Except.ok (u, rest) ∧ u.role = Role.admin) := by
  have h := C6_bootstrap_admin (fun s => s) uEmpEx plUserEx (pstr "n1") 0
    [uAdminEx] (by decide) (by decide)
  exact ⟨h.2, h.1⟩

-- ---------------------------------------------------------------------
-- C7: verify_password on malformed hashes
-- ---------------------------------------------------------------------

/-- A user whose stored credential is not a recognisable bcrypt hash. -/
def uBadHashEx : User where
  id := pstr "u7"
  username := pstr "dave"
  email := pstr "dave@x.com"
  full_name := none
  role := Role.employee
  password_hash := some (pstr "plaintext-oops")
  created_at := 0
  updated_at := 0

/-- Counterexample to C7 as stated: on a hash that matches no configured
scheme, `verify_password` does not return false — it propagates passlib's
`UnknownHashError` — and the password-change caller, which wraps the call in
no `try/except`, surfaces it as an unhandled server error instead of
treating it as an authentication failure. -/
theorem C7_counterexample :
    verify_password (passlibVerifyModel (fun _ _ => false)) (pstr "pw")
      (pstr "plaintext-oops") = PwVerifyOutcome.raised ∧
    change_my_password (passlibVerifyModel (fun _ _ => false)) (fun s => s)
      uBadHashEx (some (pstr "pw")) (some (pstr "new")) =
      Except.error HTTPErr.internalError :=
  ⟨rfl, rfl⟩

/-- C7 as amended: when the hash primitive raises on the stored hash,
`verify_password` propagates the exception rather than returning false; the
login path (`authenticate_user`) catches it and treats it as an
authentication failure, but `change_my_password` does not catch it, so
there the same condition is an unhandled server error. -/
theorem C7_raise_propagation_amended (pv : PyStr → PyStr → PwVerifyOutcome)
    (users : List User) (ident password : PyStr) (u : User) (h : PyStr)
    (hashPw : PyStr → PyStr) (np : PyStr)
    (hfind : get_user_by_identifier users ident = some u)
    (hhash : u.password_hash = some h)
    (hraise : pv password h = PwVerifyOutcome.raised)
    (hnp : np ≠ []) (hpw : password ≠ []) :
    verify_password pv password h = PwVerifyOutcome.raised ∧
    authenticate_user pv users ident password = none ∧
    change_my_password pv hashPw u (some password) (some np) =
      Except.error HTTPErr.internalError := by
  refine ⟨hraise, ?_, ?_⟩
  · unfold authenticate_user
    by_cases he : h = []
    · simp [hfind, hhash, he]
    · simp [hfind, hhash, he, verify_password, hraise]
  · unfold change_my_password
    simp [hnp, hpw, hhash, verify_password, hraise]

/-- Witness for the amended C7 on the malformed stored hash of `dave`. -/
theorem C7_raise_propagation_amended_witness :
    verify_password (passlibVerifyModel (fun _ _ => false)) (pstr "pw")
      (pstr "plaintext-oops") = PwVerifyOutcome.raised ∧
    authenticate_user (passlibVerifyModel (fun _ _ => false)) [uBadHashEx]
      (pstr "dave") (pstr "pw") = none ∧
    change_my_password (passlibVerifyModel (fun _ _ => false)) (fun s => s)
      uBadHashEx (some (pstr "pw")) (some (pstr "new")) =
      Except.error HTTPErr.internalError :=
  C7_raise_propagation_amended (passlibVerifyModel (fun _ _ => false))
    [uBadHashEx] (pstr "dave") (pstr "pw") uBadHashEx (pstr "plaintext-oops")
    (fun s => s) (pstr "new") rfl rfl rfl (by decide) (by decide)

-- ---------------------------------------------------------------------
-- C10: frame property of PUT /tasks/{key}
-- ---------------------------------------------------------------------

/-- C10: on a successful PUT /tasks/{key}, every task field whose key is
absent from the payload — counting `progress` as present when the
`percent_complete` alias resolves, and counting `status`/`priority`/
`due_date` as absent when their submitted values are dropped as invalid —
keeps its prior value; `updated_at` is refreshed to the current time. -/
theorem C10_update_frame (task_key : PyStr) (p : UpdatePayload) (now : Int)
    (store : List Task) (t t2 : Task) (rest : List Task)
    (hres : resolve_task store task_key = some t)
    (hupd : update_task task_key p now store = Except.ok (t2, rest)) :
    (p.id = none → t2.id = t.id) ∧
    (p.title = none → t2.title = t.title) ∧
    (p.description = none → t2.description = t.description) ∧
    ((match p.status with | none => none | some v => canon_status v) = none →
      t2.status = t.status) ∧
    ((match p.priority with | none => none | some v => canon_priority v) = none →
      t2.priority = t.priority) ∧
    (p.progress = none →
      (p.percent_complete = none ∨ p.percent_complete = some PCVal.bad) →
      t2.progress = t.progress) ∧
    (parse_due_date p.due_date = none → t2.due_date = t.due_date) ∧
    (p.assignee_id = none → t2.assignee_id = t.assignee_id) ∧
    (p.created_at = none → t2.created_at = t.created_at) ∧
    t2.updated_at = now := by
  have ht2 : t2 = applyUpdate t p now := by
    unfold update_task at hupd
    rw [hres] at hupd
    cases hupd
    rfl
  subst ht2
  refine ⟨?_, ?_, ?_, ?_, ?_, ?_, ?_, ?_, ?_, rfl⟩
  · intro h; simp [applyUpdate, h]
  · intro h; simp [applyUpdate, h]
  · intro h; simp [applyUpdate, h]
  · intro h
    show (match (match p.status with | none => none | some v => canon_status v) with
      | some v => v | none => t.status) = t.status
    rw [h]
  · intro h
    show (match (match p.priority with | none => none | some v => canon_priority v) with
      | some v => v | none => t.priority) = t.priority
    rw [h]
  · intro h1 h2
    rcases h2 with h2 | h2 <;> simp [applyUpdate, h1, h2]
  · intro h; simp [applyUpdate, h]
  · intro h; simp [applyUpdate, h]
  · intro h; simp [applyUpdate, h]

/-- Witness for C10: updating `aaa01` with the empty dict leaves every field
unchanged and refreshes `updated_at` to 7. -/
theorem C10_update_frame_witness :
    ({ tEx with updated_at := 7 } : Task).title = tEx.title ∧
    ({ tEx with updated_at := 7 } : Task).updated_at = 7 := by
  have h := C10_update_frame (pstr "aaa01") {} 7 [tEx] tEx
    { tEx with updated_at := 7 } [{ tEx with updated_at := 7 }] rfl rfl
  exact ⟨h.2.1 rfl, h.2.2.2.2.2.2.2.2.2⟩

end TaskApp
